import Mathlib

/-!
Verification of the chess-bot backend (src/app.py).

The backend is a thin Flask server holding one global `ChessGame` object.
All chess rules live in the external python-chess library and the engine
search in an external Stockfish subprocess; we embed those black boxes as
parameter structures (`ChessLib`, `World`) of pure functions, and translate
every method of `ChessGame` and every HTTP route body into a pure Lean
function over an explicit game state. Exceptions of the Python code are
modelled with `Option`: a partial external call returns `none` where the
Python call raises, and the enclosing try/except of the source becomes the
corresponding `match` in the embedding. Timestamps (`datetime.now()`) are
passed in as an explicit `now : String` argument.
-/

/-- Who made a move, as recorded in `game_history` entries. -/
inductive Player where
  | human
  | ai
deriving DecidableEq, Repr

/-- One entry of `ChessGame.game_history`:
`{'move': ..., 'player': ..., 'timestamp': ...}`. -/
structure HistoryEntry where
  move : String
  player : Player
  timestamp : String
deriving DecidableEq, Repr

/-- The external chess library (python-chess), embedded as a black box.
`B` is the type of board objects, `M` the type of move objects.
`from_uci` models `chess.Move.from_uci`, returning `none` where the Python
call raises; `board_has_pgn` models `hasattr(board, 'pgn')` and `pgn` the
attribute it would guard. -/
structure ChessLib (B M : Type) where
  init : B
  fen : B → String
  turn : B → Bool
  is_check : B → Bool
  is_checkmate : B → Bool
  is_stalemate : B → Bool
  is_game_over : B → Bool
  legal_moves : B → List M
  push : B → M → B
  from_uci : String → Option M
  uci : M → String
  board_has_pgn : Bool
  pgn : B → String

/-- The process environment: the filesystem probe `os.path.exists`, the
engine launcher `chess.engine.SimpleEngine.popen_uci` (`none` models a
raised launch exception) and the engine call `engine.play` followed by
`board.push(result.move)` preparation (`none` models any exception in the
engine round-trip). `E` is the type of engine handles. -/
structure World (B M E : Type) where
  path_exists : String → Bool
  popen_uci : String → Option E
  play : E → B → Int → Option M

/-- The mutable state of the `ChessGame` class: fields set in `__init__`
and updated by the methods. -/
structure ChessGame (B M E : Type) where
  board : B
  engine_path : Option String
  engine : Option E
  game_history : List HistoryEntry
  difficulty : Int
deriving DecidableEq

/-- The ordered candidate list of `ChessGame.find_stockfish`. -/
def possible_paths : List String :=
  [ "./stockfish.exe",
    "./stockfish/stockfish.exe",
    "stockfish.exe",
    "stockfish",
    "./stockfish",
    "/usr/bin/stockfish",
    "/usr/local/bin/stockfish",
    "C:\\Program Files\\stockfish\\stockfish.exe",
    "C:\\stockfish\\stockfish.exe" ]

/-- `ChessGame.find_stockfish`: return the first candidate path for which
`os.path.exists(path) or path == 'stockfish'` holds, else `None`. -/
def find_stockfish (path_exists : String → Bool) : Option String :=
  possible_paths.find? (fun path => path_exists path || path == "stockfish")

/-- `ChessGame.__init__`: fresh board, probed engine path, no engine
process, empty history, difficulty 1. -/
def ChessGame.init {B M E : Type} (lib : ChessLib B M) (w : World B M E) :
    ChessGame B M E :=
  { board := lib.init
    engine_path := find_stockfish w.path_exists
    engine := none
    game_history := []
    difficulty := 1 }

/-- `ChessGame.start_engine`: if `self.engine_path` is truthy, launch the
engine and store the handle, returning True; on a falsy path or a launch
exception, leave the state as it was and return False. -/
def ChessGame.start_engine {B M E : Type} (w : World B M E)
    (g : ChessGame B M E) : ChessGame B M E × Bool :=
  match g.engine_path with
  | some p =>
    if p.isEmpty then (g, false)
    else
      match w.popen_uci p with
      | some eng => ({ g with engine := some eng }, true)
      | none => (g, false)
  | none => (g, false)

/-- `ChessGame.stop_engine`: drop the engine handle if one is held. -/
def ChessGame.stop_engine {B M E : Type} (g : ChessGame B M E) :
    ChessGame B M E :=
  match g.engine with
  | some _ => { g with engine := none }
  | none => g

/-- `ChessGame.make_move`: parse the string as UCI; if parsing raises the
bare except returns False; if the move is not in `board.legal_moves`
return False; otherwise push it, append one human history entry with the
current timestamp, and return True. -/
def ChessGame.make_move {B M E : Type} [DecidableEq M] (lib : ChessLib B M)
    (g : ChessGame B M E) (move_str now : String) : ChessGame B M E × Bool :=
  match lib.from_uci move_str with
  | some move =>
    if move ∈ lib.legal_moves g.board then
      ({ g with
          board := lib.push g.board move
          game_history := g.game_history ++
            [{ move := move_str, player := Player.human, timestamp := now }] },
       true)
    else (g, false)
  | none => (g, false)

/-- The engine round-trip of `ChessGame.get_engine_move` once a handle is
available: on any exception return None with the state untouched, else
push the engine move, append one ai history entry, and return its UCI. -/
def ChessGame.engine_play {B M E : Type} (lib : ChessLib B M)
    (w : World B M E) (g : ChessGame B M E) (eng : E) (now : String) :
    ChessGame B M E × Option String :=
  match w.play eng g.board g.difficulty with
  | some move =>
    ({ g with
        board := lib.push g.board move
        game_history := g.game_history ++
          [{ move := lib.uci move, player := Player.ai, timestamp := now }] },
     some (lib.uci move))
  | none => (g, none)

/-- `ChessGame.get_engine_move`: lazily start the engine if none is
running (returning None on failure), then do the engine round-trip. -/
def ChessGame.get_engine_move {B M E : Type} (lib : ChessLib B M)
    (w : World B M E) (g : ChessGame B M E) (now : String) :
    ChessGame B M E × Option String :=
  match g.engine with
  | some eng => ChessGame.engine_play lib w g eng now
  | none =>
    match ChessGame.start_engine w g with
    | (g1, true) =>
      match g1.engine with
      | some eng => ChessGame.engine_play lib w g1 eng now
      | none => (g1, none)
    | (g1, false) => (g1, none)

/-- The dictionary returned by `ChessGame.get_board_state`. -/
structure BoardState where
  fen : String
  turn : String
  is_check : Bool
  is_checkmate : Bool
  is_stalemate : Bool
  is_game_over : Bool
  legal_moves : List String
  move_count : Nat
deriving DecidableEq, Repr

/-- `ChessGame.get_board_state`: a pure read of the current position. -/
def ChessGame.get_board_state {B M E : Type} (lib : ChessLib B M)
    (g : ChessGame B M E) : BoardState :=
  { fen := lib.fen g.board
    turn := if lib.turn g.board then "white" else "black"
    is_check := lib.is_check g.board
    is_checkmate := lib.is_checkmate g.board
    is_stalemate := lib.is_stalemate g.board
    is_game_over := lib.is_game_over g.board
    legal_moves := (lib.legal_moves g.board).map lib.uci
    move_count := g.game_history.length }

/-- `ChessGame.reset_game`: fresh board, empty history; nothing else. -/
def ChessGame.reset_game {B M E : Type} (lib : ChessLib B M)
    (g : ChessGame B M E) : ChessGame B M E :=
  { g with board := lib.init, game_history := [] }

/-- `ChessGame.set_difficulty`: store `max(1, min(20, level))`. -/
def ChessGame.set_difficulty {B M E : Type} (g : ChessGame B M E)
    (level : Int) : ChessGame B M E :=
  { g with difficulty := max 1 (min 20 level) }

/-- The standard initial-position FEN, `chess.STARTING_FEN` of the
external library. -/
def startingFEN : String :=
  "rnbqkbnr/pppppppp/8/8/8/8/PPPPPPPP/RNBQKBNR w KQkq - 0 1"

/-!
The HTTP route layer. Each route body is a pure function from the global
game state (and the request body) to the new game state and a response.
Request bodies: a JSON body can fail to be a dict (`request.get_json()`
returning `None`, e.g. for the body `null`), so a body with one field `f`
is modelled as `Option (Option F)`: the outer `none` is a non-dict body
(on which `data.get(...)` raises `AttributeError`), the inner `none` a
dict without the field. `/api/start` uses `request.get_json() or {}`, so
its body collapses to `Option Int`. Responses record the HTTP status and
the JSON envelope fields; an absent JSON key is an `Option` that is
`none`. Error strings of generic `except Exception` handlers stand in for
`str(e)`.
-/

/-- Response of POST `/api/start`. -/
structure StartResponse where
  status : Nat
  success : Bool
  error : Option String
  board_state : Option BoardState
deriving DecidableEq, Repr

/-- Route body of POST `/api/start` (`start_game` in the source):
reset the game, clamp and store the difficulty, then (re)start the
engine, answering 500 if that fails. -/
def Api.start_game {B M E : Type} (lib : ChessLib B M) (w : World B M E)
    (g : ChessGame B M E) (difficulty? : Option Int) :
    ChessGame B M E × StartResponse :=
  let difficulty := difficulty?.getD 1
  let g1 := ChessGame.reset_game lib g
  let g2 := ChessGame.set_difficulty g1 difficulty
  match ChessGame.start_engine w g2 with
  | (g3, false) =>
    (g3, { status := 500, success := false
           error := some "Could not start chess engine. Please ensure Stockfish is installed."
           board_state := none })
  | (g3, true) =>
    (g3, { status := 200, success := true, error := none
           board_state := some (ChessGame.get_board_state lib g3) })

/-- Response of POST `/api/move`. -/
structure MoveResponse where
  status : Nat
  success : Bool
  error : Option String
  board_state : Option BoardState
  ai_move : Option (Option String)
  game_over : Option Bool
deriving DecidableEq, Repr

/-- Route body of POST `/api/move` (`make_move` in the source): 400 when
the move field is falsy or the player move is rejected; if the player
move ends the game answer at once with `ai_move = None`; otherwise ask
the engine, answering 500 when it fails. A non-dict body raises
`AttributeError` at `data.get`, caught by the generic handler as 500. -/
def Api.make_move {B M E : Type} [DecidableEq M] (lib : ChessLib B M)
    (w : World B M E) (g : ChessGame B M E) (body : Option (Option String))
    (now : String) : ChessGame B M E × MoveResponse :=
  match body with
  | none =>
    (g, { status := 500, success := false
          error := some "AttributeError: NoneType object has no attribute get"
          board_state := none, ai_move := none, game_over := none })
  | some move? =>
    match move? with
    | none =>
      (g, { status := 400, success := false, error := some "Move required"
            board_state := none, ai_move := none, game_over := none })
    | some move =>
      if move.isEmpty then
        (g, { status := 400, success := false, error := some "Move required"
              board_state := none, ai_move := none, game_over := none })
      else
        match ChessGame.make_move lib g move now with
        | (g1, false) =>
          (g1, { status := 400, success := false, error := some "Invalid move"
                 board_state := none, ai_move := none, game_over := none })
        | (g1, true) =>
          let board_state := ChessGame.get_board_state lib g1
          if board_state.is_game_over then
            (g1, { status := 200, success := true, error := none
                   board_state := some board_state
                   ai_move := some none, game_over := some true })
          else
            match ChessGame.get_engine_move lib w g1 now with
            | (g2, none) =>
              (g2, { status := 500, success := false
                     error := some "AI move failed"
                     board_state := none, ai_move := none, game_over := none })
            | (g2, some ai_move) =>
              (g2, { status := 200, success := true, error := none
                     board_state := some (ChessGame.get_board_state lib g2)
                     ai_move := some (some ai_move)
                     game_over := some (ChessGame.get_board_state lib g2).is_game_over })

/-- Response of GET `/api/board` and POST `/api/reset`. -/
structure BoardResponse where
  status : Nat
  success : Bool
  error : Option String
  board_state : Option BoardState
deriving DecidableEq, Repr

/-- Route body of GET `/api/board` (`get_board` in the source): a pure
read, always a 200 success envelope. -/
def Api.get_board {B M E : Type} (lib : ChessLib B M)
    (g : ChessGame B M E) : BoardResponse :=
  { status := 200, success := true, error := none
    board_state := some (ChessGame.get_board_state lib g) }

/-- Route body of POST `/api/reset` (`reset_game` in the source). -/
def Api.reset_game {B M E : Type} (lib : ChessLib B M)
    (g : ChessGame B M E) : ChessGame B M E × BoardResponse :=
  let g1 := ChessGame.reset_game lib g
  (g1, { status := 200, success := true, error := none
         board_state := some (ChessGame.get_board_state lib g1) })

/-- Response of POST `/api/difficulty`. -/
structure DifficultyResponse where
  status : Nat
  success : Bool
  error : Option String
  difficulty : Option Int
deriving DecidableEq, Repr

/-- Route body of POST `/api/difficulty` (`set_difficulty` in the
source): store the clamped level and echo the stored difficulty. A
non-dict body raises at `data.get`, caught as 500. -/
def Api.set_difficulty {B M E : Type} (g : ChessGame B M E)
    (body : Option (Option Int)) : ChessGame B M E × DifficultyResponse :=
  match body with
  | none =>
    (g, { status := 500, success := false
          error := some "AttributeError: NoneType object has no attribute get"
          difficulty := none })
  | some level? =>
    let g1 := ChessGame.set_difficulty g (level?.getD 1)
    (g1, { status := 200, success := true, error := none
           difficulty := some g1.difficulty })

/-- Response of GET `/api/history`. -/
structure HistoryResponse where
  status : Nat
  success : Bool
  error : Option String
  history : Option (List HistoryEntry)
  pgn : Option (Option String)
deriving DecidableEq, Repr

/-- Route body of GET `/api/history` (`get_history` in the source): the
history list, and `board.pgn()` guarded by `hasattr(board, 'pgn')`. -/
def Api.get_history {B M E : Type} (lib : ChessLib B M)
    (g : ChessGame B M E) : HistoryResponse :=
  { status := 200, success := true, error := none
    history := some g.game_history
    pgn := some (if lib.board_has_pgn then some (lib.pgn g.board) else none) }

/-- One client interaction with the server: each constructor is one of
the state-touching HTTP endpoints with its request body (and, for moves,
the wall-clock timestamp the handler would read). -/
inductive Op where
  | start (difficulty? : Option Int)
  | move (body : Option (Option String)) (now : String)
  | board
  | reset
  | difficulty (body : Option (Option Int))
  | history
deriving DecidableEq, Repr

/-- The state transition of one HTTP request. -/
def stepOp {B M E : Type} [DecidableEq M] (lib : ChessLib B M)
    (w : World B M E) (g : ChessGame B M E) : Op → ChessGame B M E
  | Op.start d? => (Api.start_game lib w g d?).1
  | Op.move body now => (Api.make_move lib w g body now).1
  | Op.board => g
  | Op.reset => (Api.reset_game lib g).1
  | Op.difficulty body => (Api.set_difficulty g body).1
  | Op.history => g

/-- The state after a sequence of HTTP requests. -/
def runOps {B M E : Type} [DecidableEq M] (lib : ChessLib B M)
    (w : World B M E) : List Op → ChessGame B M E → ChessGame B M E
  | [], g => g
  | op :: ops, g => runOps lib w ops (stepOp lib w g op)

/-!
A small concrete instantiation of the black-box parameters, used to
evaluate the theorems on closed inputs. Boards are the stack of pushed
moves, move objects are their UCI strings, engine handles are `Unit`.
The game is over once four moves have been pushed.
-/

/-- A concrete chess library: board = list of pushed UCI strings. -/
def testLib : ChessLib (List String) String :=
  { init := []
    fen := fun b => if b.isEmpty then startingFEN else "altered"
    turn := fun b => b.length % 2 == 0
    is_check := fun _ => false
    is_checkmate := fun b => decide (4 ≤ b.length)
    is_stalemate := fun _ => false
    is_game_over := fun b => decide (4 ≤ b.length)
    legal_moves := fun b => if 4 ≤ b.length then [] else ["e2e4", "e7e5"]
    push := fun b m => b ++ [m]
    from_uci := fun s => if s.length == 4 then some s else none
    uci := id
    board_has_pgn := false
    pgn := fun _ => "" }

/-- A concrete environment in which the engine works. -/
def testWorld : World (List String) String Unit :=
  { path_exists := fun _ => false
    popen_uci := fun _ => some ()
    play := fun _ b _ => if 4 ≤ b.length then none else some "e7e5" }

/-- A concrete environment in which launching the engine always fails. -/
def failWorld : World (List String) String Unit :=
  { path_exists := fun _ => false
    popen_uci := fun _ => none
    play := fun _ _ _ => none }

/-- A concrete session state at the initial position. -/
def testGame : ChessGame (List String) String Unit :=
  { board := []
    engine_path := some "./stockfish.exe"
    engine := none
    game_history := []
    difficulty := 1 }

/-!
Shared frame lemmas about the state effects of the methods.
-/

/-- `start_engine` writes only the `engine` field. -/
theorem start_engine_frame {B M E : Type} (w : World B M E)
    (g : ChessGame B M E) :
    (ChessGame.start_engine w g).1.board = g.board ∧
    (ChessGame.start_engine w g).1.game_history = g.game_history ∧
    (ChessGame.start_engine w g).1.difficulty = g.difficulty ∧
    (ChessGame.start_engine w g).1.engine_path = g.engine_path := by
  obtain ⟨b, ep, en, hist, diff⟩ := g
  rcases ep with _ | p
  · exact ⟨rfl, rfl, rfl, rfl⟩
  · by_cases hp : p.isEmpty
    · simp [ChessGame.start_engine, hp]
    · rcases hpop : w.popen_uci p with _ | eng <;>
        simp [ChessGame.start_engine, hp, hpop]

/-- A succeeding `start_engine` leaves a handle in the `engine` field. -/
theorem start_engine_true_engine {B M E : Type} (w : World B M E)
    (g : ChessGame B M E) (h : (ChessGame.start_engine w g).2 = true) :
    (ChessGame.start_engine w g).1.engine.isSome := by
  obtain ⟨b, ep, en, hist, diff⟩ := g
  rcases ep with _ | p
  · simp [ChessGame.start_engine] at h
  · by_cases hp : p.isEmpty
    · simp [ChessGame.start_engine, hp] at h
    · rcases hpop : w.popen_uci p with _ | eng
      · simp [ChessGame.start_engine, hp, hpop] at h
      · simp [ChessGame.start_engine, hp, hpop]

/-- `engine_play` keeps `difficulty`, `engine_path` and `engine`; on a
`none` answer it keeps the whole state. -/
theorem engine_play_frame {B M E : Type} (lib : ChessLib B M)
    (w : World B M E) (g : ChessGame B M E) (eng : E) (now : String) :
    (ChessGame.engine_play lib w g eng now).1.difficulty = g.difficulty ∧
    (ChessGame.engine_play lib w g eng now).1.engine_path = g.engine_path ∧
    (ChessGame.engine_play lib w g eng now).1.engine = g.engine ∧
    ((ChessGame.engine_play lib w g eng now).2 = none →
      (ChessGame.engine_play lib w g eng now).1 = g) := by
  unfold ChessGame.engine_play
  rcases hplay : w.play eng g.board g.difficulty with _ | mv <;> simp

/-- A failing `get_engine_move` leaves board and history untouched. -/
theorem get_engine_move_fail_frame {B M E : Type} (lib : ChessLib B M)
    (w : World B M E) (g : ChessGame B M E) (now : String)
    (h : (ChessGame.get_engine_move lib w g now).2 = none) :
    (ChessGame.get_engine_move lib w g now).1.board = g.board ∧
    (ChessGame.get_engine_move lib w g now).1.game_history = g.game_history := by
  obtain ⟨b, ep, en, hist, diff⟩ := g
  rcases en with _ | eng
  · rcases ep with _ | p
    · simp [ChessGame.get_engine_move, ChessGame.start_engine]
    · by_cases hp : p.isEmpty
      · simp [ChessGame.get_engine_move, ChessGame.start_engine, hp]
      · rcases hpop : w.popen_uci p with _ | eng
        · simp [ChessGame.get_engine_move, ChessGame.start_engine, hp, hpop]
        · rcases hplay : w.play eng b diff with _ | mv
          · simp [ChessGame.get_engine_move, ChessGame.start_engine,
              ChessGame.engine_play, hp, hpop, hplay]
          · simp [ChessGame.get_engine_move, ChessGame.start_engine,
              ChessGame.engine_play, hp, hpop, hplay] at h
  · rcases hplay : w.play eng b diff with _ | mv
    · simp [ChessGame.get_engine_move, ChessGame.engine_play, hplay]
    · simp [ChessGame.get_engine_move, ChessGame.engine_play, hplay] at h

/-- `get_engine_move` never changes `difficulty` or `engine_path`. -/
theorem get_engine_move_keeps_difficulty {B M E : Type} (lib : ChessLib B M)
    (w : World B M E) (g : ChessGame B M E) (now : String) :
    (ChessGame.get_engine_move lib w g now).1.difficulty = g.difficulty := by
  obtain ⟨b, ep, en, hist, diff⟩ := g
  rcases en with _ | eng
  · rcases ep with _ | p
    · simp [ChessGame.get_engine_move, ChessGame.start_engine]
    · by_cases hp : p.isEmpty
      · simp [ChessGame.get_engine_move, ChessGame.start_engine, hp]
      · rcases hpop : w.popen_uci p with _ | eng
        · simp [ChessGame.get_engine_move, ChessGame.start_engine, hp, hpop]
        · rcases hplay : w.play eng b diff with _ | mv <;>
            simp [ChessGame.get_engine_move, ChessGame.start_engine,
              ChessGame.engine_play, hp, hpop, hplay]
  · rcases hplay : w.play eng b diff with _ | mv <;>
      simp [ChessGame.get_engine_move, ChessGame.engine_play, hplay]

/-- `make_move` keeps `difficulty`, `engine_path` and `engine`; when it
returns False it keeps the whole state. -/
theorem make_move_frame {B M E : Type} [DecidableEq M] (lib : ChessLib B M)
    (g : ChessGame B M E) (move_str now : String) :
    (ChessGame.make_move lib g move_str now).1.difficulty = g.difficulty ∧
    (ChessGame.make_move lib g move_str now).1.engine_path = g.engine_path ∧
    (ChessGame.make_move lib g move_str now).1.engine = g.engine ∧
    ((ChessGame.make_move lib g move_str now).2 = false →
      (ChessGame.make_move lib g move_str now).1 = g) := by
  unfold ChessGame.make_move
  rcases hp : lib.from_uci move_str with _ | mv
  · simp
  · by_cases hm : mv ∈ lib.legal_moves g.board <;> simp [hm]

/-- The difficulty stored by the clamp is inside `[1, 20]`. -/
theorem clamp_mem (level : Int) :
    1 ≤ max 1 (min 20 level) ∧ max 1 (min 20 level) ≤ 20 :=
  ⟨le_max_left _ _, max_le (by norm_num) (min_le_left _ _)⟩

/-- A concrete session state mid-game, with a running engine, a nonempty
history and a non-default difficulty. -/
def dirtyGame : ChessGame (List String) String Unit :=
  { board := ["e2e4"]
    engine_path := some "./stockfish.exe"
    engine := some ()
    game_history := [{ move := "e2e4", player := Player.human, timestamp := "t0" }]
    difficulty := 7 }

/-!
Claim theorems.
-/

/-- C1: on any board state, `make_move` returns False and leaves board
and history (indeed the whole state) unchanged when the string does not
parse as UCI or the parsed move is not legal; otherwise it pushes the
move, appends exactly one history entry, and returns True. It never
raises: the embedding is a total function, the bare except of the source
being the `none` branch. -/
theorem make_move_spec {B M E : Type} [DecidableEq M] (lib : ChessLib B M)
    (g : ChessGame B M E) (s now : String) :
    ((lib.from_uci s = none ∨
        ∃ m, lib.from_uci s = some m ∧ m ∉ lib.legal_moves g.board) →
      ChessGame.make_move lib g s now = (g, false)) ∧
    (∀ m, lib.from_uci s = some m → m ∈ lib.legal_moves g.board →
      ChessGame.make_move lib g s now =
        ({ g with
            board := lib.push g.board m
            game_history := g.game_history ++
              [{ move := s, player := Player.human, timestamp := now }] },
         true)) := by
  constructor
  · rintro (hnone | ⟨m, hsome, hmem⟩)
    · simp [ChessGame.make_move, hnone]
    · simp [ChessGame.make_move, hsome, hmem]
  · intro m hsome hmem
    simp [ChessGame.make_move, hsome, hmem]

/-- C1 witness: an unparsable string, a parsable but illegal move, and a
legal move, all on the concrete initial session. -/
theorem make_move_spec_witness :
    ChessGame.make_move testLib testGame "xx" "t0" = (testGame, false) ∧
    ChessGame.make_move testLib testGame "a1a2" "t0" = (testGame, false) ∧
    ChessGame.make_move testLib testGame "e2e4" "t0" =
      ({ testGame with
          board := ["e2e4"]
          game_history :=
            [{ move := "e2e4", player := Player.human, timestamp := "t0" }] },
       true) :=
  ⟨(make_move_spec testLib testGame "xx" "t0").1 (Or.inl (by decide)),
   (make_move_spec testLib testGame "a1a2" "t0").1
     (Or.inr ⟨"a1a2", by decide, by decide⟩),
   (make_move_spec testLib testGame "e2e4" "t0").2 "e2e4" (by decide) (by decide)⟩

/-- C2: `set_difficulty` stores `max(1, min(20, level))`, which always
lies in `[1, 20]`; inputs 0, 37, 7 store 1, 20, 7. -/
theorem set_difficulty_spec {B M E : Type} (g : ChessGame B M E)
    (level : Int) :
    (ChessGame.set_difficulty g level).difficulty = max 1 (min 20 level) ∧
    1 ≤ (ChessGame.set_difficulty g level).difficulty ∧
    (ChessGame.set_difficulty g level).difficulty ≤ 20 ∧
    (ChessGame.set_difficulty g 0).difficulty = 1 ∧
    (ChessGame.set_difficulty g 37).difficulty = 20 ∧
    (ChessGame.set_difficulty g 7).difficulty = 7 := by
  refine ⟨rfl, (clamp_mem level).1, (clamp_mem level).2, ?_, ?_, ?_⟩ <;>
    simp [ChessGame.set_difficulty]

/-- C2 witness: the clamp evaluated on the concrete session. -/
theorem set_difficulty_spec_witness :
    (ChessGame.set_difficulty testGame 5).difficulty = max 1 (min 20 5) ∧
    1 ≤ (ChessGame.set_difficulty testGame 5).difficulty ∧
    (ChessGame.set_difficulty testGame 5).difficulty ≤ 20 ∧
    (ChessGame.set_difficulty testGame 0).difficulty = 1 ∧
    (ChessGame.set_difficulty testGame 37).difficulty = 20 ∧
    (ChessGame.set_difficulty testGame 7).difficulty = 7 :=
  set_difficulty_spec testGame 5

/-- C3: right after `reset_game` the snapshot fen is the standard
initial-position FEN and the history is empty. The equality
`lib.fen lib.init = startingFEN` is the documented behavior of the
external library (`chess.Board()` is the standard initial position),
taken as a hypothesis. -/
theorem reset_game_spec {B M E : Type} (lib : ChessLib B M)
    (g : ChessGame B M E) (hfen : lib.fen lib.init = startingFEN) :
    (ChessGame.get_board_state lib (ChessGame.reset_game lib g)).fen =
      startingFEN ∧
    (ChessGame.reset_game lib g).game_history = [] :=
  ⟨by simp [ChessGame.get_board_state, ChessGame.reset_game, hfen], rfl⟩

/-- C3 witness: reset of a mid-game session with nonempty history. -/
theorem reset_game_spec_witness :
    (ChessGame.get_board_state testLib (ChessGame.reset_game testLib dirtyGame)).fen =
      startingFEN ∧
    (ChessGame.reset_game testLib dirtyGame).game_history = [] :=
  reset_game_spec testLib dirtyGame rfl

/-- C8: `reset_game` writes only board and history: engine handle,
engine path and difficulty are untouched (in particular the engine
process is not stopped), the board becomes the initial one and the
history the empty list. -/
theorem reset_game_frame_spec {B M E : Type} (lib : ChessLib B M)
    (g : ChessGame B M E) :
    (ChessGame.reset_game lib g).engine = g.engine ∧
    (ChessGame.reset_game lib g).engine_path = g.engine_path ∧
    (ChessGame.reset_game lib g).difficulty = g.difficulty ∧
    (ChessGame.reset_game lib g).board = lib.init ∧
    (ChessGame.reset_game lib g).game_history = [] :=
  ⟨rfl, rfl, rfl, rfl, rfl⟩

/-- C8 witness: reset of the mid-game session keeps its engine handle,
path and difficulty. -/
theorem reset_game_frame_spec_witness :
    (ChessGame.reset_game testLib dirtyGame).engine = dirtyGame.engine ∧
    (ChessGame.reset_game testLib dirtyGame).engine_path = dirtyGame.engine_path ∧
    (ChessGame.reset_game testLib dirtyGame).difficulty = dirtyGame.difficulty ∧
    (ChessGame.reset_game testLib dirtyGame).board = testLib.init ∧
    (ChessGame.reset_game testLib dirtyGame).game_history = [] :=
  reset_game_frame_spec testLib dirtyGame

/-- C4 counterexample: on a filesystem where no candidate exists,
`find_stockfish` does not signal NotFound: it returns the bare name
"stockfish" (the fourth candidate), which passes the
`os.path.exists(path) or path == 'stockfish'` test unconditionally. -/
theorem find_stockfish_counterexample :
    (∀ p ∈ possible_paths, (fun _ : String => false) p = false) ∧
    find_stockfish (fun _ => false) = some "stockfish" ∧
    find_stockfish (fun _ => false) ≠ none := by
  refine ⟨fun p _ => rfl, ?_, ?_⟩ <;> decide

/-- C4 amended: `find_stockfish` returns the first candidate of the fixed
ordered list for which the path exists or which is the literal name
"stockfish"; since that fourth candidate always passes, the result is
never NotFound, and when none of the first three candidates exists the
result is "stockfish" regardless of its existence. Deterministic in the
filesystem predicate. -/
theorem find_stockfish_amended (e : String → Bool) :
    (find_stockfish e).isSome = true ∧
    (e "./stockfish.exe" = true → find_stockfish e = some "./stockfish.exe") ∧
    (e "./stockfish.exe" = false → e "./stockfish/stockfish.exe" = true →
      find_stockfish e = some "./stockfish/stockfish.exe") ∧
    (e "./stockfish.exe" = false → e "./stockfish/stockfish.exe" = false →
      e "stockfish.exe" = false → find_stockfish e = some "stockfish") ∧
    (∀ p, find_stockfish e = some p →
      p ∈ possible_paths ∧ (e p = true ∨ p = "stockfish")) := by
  have hne1 : ("./stockfish.exe" == "stockfish") = false := by decide
  have hne2 : ("./stockfish/stockfish.exe" == "stockfish") = false := by decide
  have hne3 : ("stockfish.exe" == "stockfish") = false := by decide
  have heq4 : ("stockfish" == "stockfish") = true := by decide
  cases h1 : e "./stockfish.exe" <;>
    cases h2 : e "./stockfish/stockfish.exe" <;>
      cases h3 : e "stockfish.exe" <;>
        simp [find_stockfish, possible_paths, List.find?, h1, h2, h3,
          hne1, hne2, hne3, heq4]

/-- C4 amended witness: the all-missing filesystem falls through to
"stockfish"; a filesystem with the first candidate present returns it. -/
theorem find_stockfish_amended_witness :
    find_stockfish (fun _ => false) = some "stockfish" ∧
    (find_stockfish (fun _ => false)).isSome = true ∧
    find_stockfish (fun p => p == "./stockfish.exe") = some "./stockfish.exe" :=
  ⟨(find_stockfish_amended (fun _ => false)).2.2.2.1 rfl rfl rfl,
   (find_stockfish_amended (fun _ => false)).1,
   (find_stockfish_amended (fun p => p == "./stockfish.exe")).2.1 (by decide)⟩

/-- C9: the `pgn` key of the GET /api/history response is always the
JSON null. `lib.board_has_pgn = false` embeds the fact that the board
class of the external library exposes no `pgn` attribute, so the
`hasattr` guard selects `None`. -/
theorem get_history_pgn_spec {B M E : Type} (lib : ChessLib B M)
    (g : ChessGame B M E) (hnp : lib.board_has_pgn = false) :
    (Api.get_history lib g).pgn = some none ∧
    (Api.get_history lib g).history = some g.game_history ∧
    (Api.get_history lib g).status = 200 ∧
    (Api.get_history lib g).success = true := by
  simp [Api.get_history, hnp]

/-- C9 witness: the history route on the concrete mid-game session. -/
theorem get_history_pgn_spec_witness :
    (Api.get_history testLib dirtyGame).pgn = some none ∧
    (Api.get_history testLib dirtyGame).history = some dirtyGame.game_history ∧
    (Api.get_history testLib dirtyGame).status = 200 ∧
    (Api.get_history testLib dirtyGame).success = true :=
  get_history_pgn_spec testLib dirtyGame rfl

/-- C6: when `get_engine_move` fails (engine missing, launch failure, or
the engine call raising), the failure is returned as None rather than
propagated: the board and history are unchanged, and on the resulting
state GET /api/board and POST /api/reset still answer 200 success
envelopes, /api/board reporting the same snapshot as before the
failure. -/
theorem engine_failure_spec {B M E : Type} (lib : ChessLib B M)
    (w : World B M E) (g : ChessGame B M E) (now : String)
    (hfail : (ChessGame.get_engine_move lib w g now).2 = none) :
    (ChessGame.get_engine_move lib w g now).1.board = g.board ∧
    (ChessGame.get_engine_move lib w g now).1.game_history = g.game_history ∧
    (Api.get_board lib (ChessGame.get_engine_move lib w g now).1).status = 200 ∧
    (Api.get_board lib (ChessGame.get_engine_move lib w g now).1).success = true ∧
    (Api.get_board lib (ChessGame.get_engine_move lib w g now).1).board_state =
      some (ChessGame.get_board_state lib g) ∧
    (Api.reset_game lib (ChessGame.get_engine_move lib w g now).1).2.status = 200 ∧
    (Api.reset_game lib (ChessGame.get_engine_move lib w g now).1).2.success = true ∧
    (Api.reset_game lib (ChessGame.get_engine_move lib w g now).1).1.board = lib.init := by
  obtain ⟨hb, hh⟩ := get_engine_move_fail_frame lib w g now hfail
  refine ⟨hb, hh, rfl, rfl, ?_, rfl, rfl, rfl⟩
  simp [Api.get_board, ChessGame.get_board_state, hb, hh]

/-- C6 witness: in the environment where launching the engine fails, on
the concrete initial session. -/
theorem engine_failure_spec_witness :
    (ChessGame.get_engine_move testLib failWorld testGame "t0").1.board = testGame.board ∧
    (ChessGame.get_engine_move testLib failWorld testGame "t0").1.game_history =
      testGame.game_history ∧
    (Api.get_board testLib (ChessGame.get_engine_move testLib failWorld testGame "t0").1).status = 200 ∧
    (Api.get_board testLib (ChessGame.get_engine_move testLib failWorld testGame "t0").1).success = true ∧
    (Api.get_board testLib (ChessGame.get_engine_move testLib failWorld testGame "t0").1).board_state =
      some (ChessGame.get_board_state testLib testGame) ∧
    (Api.reset_game testLib (ChessGame.get_engine_move testLib failWorld testGame "t0").1).2.status = 200 ∧
    (Api.reset_game testLib (ChessGame.get_engine_move testLib failWorld testGame "t0").1).2.success = true ∧
    (Api.reset_game testLib (ChessGame.get_engine_move testLib failWorld testGame "t0").1).1.board =
      testLib.init :=
  engine_failure_spec testLib failWorld testGame "t0" (by decide)

/-- The state left by POST /api/start carries the clamped requested
difficulty whether or not the engine started. -/
theorem api_start_difficulty {B M E : Type} (lib : ChessLib B M)
    (w : World B M E) (g : ChessGame B M E) (d? : Option Int) :
    (Api.start_game lib w g d?).1.difficulty = max 1 (min 20 (d?.getD 1)) := by
  simp only [Api.start_game]
  rcases hse : ChessGame.start_engine w
      (ChessGame.set_difficulty (ChessGame.reset_game lib g) (d?.getD 1)) with ⟨g3, ok⟩
  have hfr := start_engine_frame w
    (ChessGame.set_difficulty (ChessGame.reset_game lib g) (d?.getD 1))
  rw [hse] at hfr
  rcases ok with _ | _ <;> exact hfr.2.2.1

/-- POST /api/move never changes the stored difficulty. -/
theorem api_move_difficulty {B M E : Type} [DecidableEq M] (lib : ChessLib B M)
    (w : World B M E) (g : ChessGame B M E) (body : Option (Option String))
    (now : String) :
    (Api.make_move lib w g body now).1.difficulty = g.difficulty := by
  rcases body with _ | mv?
  · rfl
  rcases mv? with _ | mv
  · rfl
  by_cases hmv : mv.isEmpty = true
  · simp [Api.make_move, hmv]
  · rw [Bool.not_eq_true] at hmv
    rcases hmm : ChessGame.make_move lib g mv now with ⟨g1, ok⟩
    have hfr := make_move_frame lib g mv now
    rw [hmm] at hfr
    rcases ok with _ | _
    · simpa [Api.make_move, hmv, hmm] using hfr.1
    · by_cases hgo : (ChessGame.get_board_state lib g1).is_game_over = true
      · simpa [Api.make_move, hmv, hmm, hgo] using hfr.1
      · rw [Bool.not_eq_true] at hgo
        rcases hem : ChessGame.get_engine_move lib w g1 now with ⟨g2, am⟩
        have hd := get_engine_move_keeps_difficulty lib w g1 now
        rw [hem] at hd
        rcases am with _ | mvai <;>
          simpa [Api.make_move, hmv, hmm, hgo, hem] using hd.trans hfr.1

/-- Each HTTP request keeps the stored difficulty inside `[1, 20]`. -/
theorem stepOp_difficulty_mem {B M E : Type} [DecidableEq M]
    (lib : ChessLib B M) (w : World B M E) (g : ChessGame B M E) (op : Op)
    (h1 : 1 ≤ g.difficulty) (h2 : g.difficulty ≤ 20) :
    1 ≤ (stepOp lib w g op).difficulty ∧ (stepOp lib w g op).difficulty ≤ 20 := by
  cases op with
  | start d? =>
    rw [stepOp, api_start_difficulty lib w g d?]
    exact clamp_mem _
  | move body now =>
    rw [stepOp, api_move_difficulty lib w g body now]
    exact ⟨h1, h2⟩
  | board => exact ⟨h1, h2⟩
  | reset => exact ⟨h1, h2⟩
  | difficulty body =>
    rcases body with _ | level?
    · exact ⟨h1, h2⟩
    · exact clamp_mem _
  | history => exact ⟨h1, h2⟩

/-- A request sequence keeps the stored difficulty inside `[1, 20]`. -/
theorem runOps_difficulty_mem {B M E : Type} [DecidableEq M]
    (lib : ChessLib B M) (w : World B M E) :
    ∀ (ops : List Op) (g : ChessGame B M E),
      1 ≤ g.difficulty → g.difficulty ≤ 20 →
      1 ≤ (runOps lib w ops g).difficulty ∧ (runOps lib w ops g).difficulty ≤ 20
  | [], _, h1, h2 => ⟨h1, h2⟩
  | op :: ops, g, h1, h2 => by
    obtain ⟨k1, k2⟩ := stepOp_difficulty_mem lib w g op h1 h2
    exact runOps_difficulty_mem lib w ops _ k1 k2

/-- C7: the difficulty field is 1 at construction, every direct
`set_difficulty` stores a value in `[1, 20]`, and after any sequence of
HTTP requests starting from the freshly constructed session the stored
difficulty is in `[1, 20]`. -/
theorem difficulty_invariant_spec {B M E : Type} [DecidableEq M]
    (lib : ChessLib B M) (w : World B M E) (ops : List Op)
    (g : ChessGame B M E) (level : Int) :
    (ChessGame.init lib w).difficulty = 1 ∧
    (1 ≤ (ChessGame.set_difficulty g level).difficulty ∧
      (ChessGame.set_difficulty g level).difficulty ≤ 20) ∧
    (1 ≤ (runOps lib w ops (ChessGame.init lib w)).difficulty ∧
      (runOps lib w ops (ChessGame.init lib w)).difficulty ≤ 20) :=
  ⟨rfl, clamp_mem level,
   runOps_difficulty_mem lib w ops (ChessGame.init lib w)
     (by norm_num [ChessGame.init]) (by norm_num [ChessGame.init])⟩

/-- C7 witness: a concrete request sequence mixing extreme difficulty
requests, moves and resets. -/
theorem difficulty_invariant_spec_witness :
    (ChessGame.init testLib testWorld).difficulty = 1 ∧
    (1 ≤ (ChessGame.set_difficulty dirtyGame 37).difficulty ∧
      (ChessGame.set_difficulty dirtyGame 37).difficulty ≤ 20) ∧
    (1 ≤ (runOps testLib testWorld
        [Op.start (some 37), Op.difficulty (some (some 0)),
         Op.move (some (some "e2e4")) "t1", Op.reset, Op.history]
        (ChessGame.init testLib testWorld)).difficulty ∧
      (runOps testLib testWorld
        [Op.start (some 37), Op.difficulty (some (some 0)),
         Op.move (some (some "e2e4")) "t1", Op.reset, Op.history]
        (ChessGame.init testLib testWorld)).difficulty ≤ 20) :=
  difficulty_invariant_spec testLib testWorld
    [Op.start (some 37), Op.difficulty (some (some 0)),
     Op.move (some (some "e2e4")) "t1", Op.reset, Op.history]
    dirtyGame 37

/-- C10: POST /api/start is not atomic on engine failure: when the
engine cannot be started it answers 500 with an error string, but the
session board has already been reset to the initial position, the
history cleared, and the clamped requested difficulty stored. -/
theorem api_start_not_atomic_spec {B M E : Type} (lib : ChessLib B M)
    (w : World B M E) (g : ChessGame B M E) (d? : Option Int)
    (hfail : (ChessGame.start_engine w
      (ChessGame.set_difficulty (ChessGame.reset_game lib g) (d?.getD 1))).2 = false) :
    (Api.start_game lib w g d?).2.status = 500 ∧
    (Api.start_game lib w g d?).2.success = false ∧
    (Api.start_game lib w g d?).2.error.isSome = true ∧
    (Api.start_game lib w g d?).1.board = lib.init ∧
    (Api.start_game lib w g d?).1.game_history = [] ∧
    (Api.start_game lib w g d?).1.difficulty = max 1 (min 20 (d?.getD 1)) := by
  simp only [Api.start_game]
  rcases hse : ChessGame.start_engine w
      (ChessGame.set_difficulty (ChessGame.reset_game lib g) (d?.getD 1)) with ⟨g3, ok⟩
  rw [hse] at hfail
  have hfr := start_engine_frame w
    (ChessGame.set_difficulty (ChessGame.reset_game lib g) (d?.getD 1))
  rw [hse] at hfr
  rcases ok with _ | _
  · exact ⟨rfl, rfl, rfl, hfr.1, hfr.2.1, hfr.2.2.1⟩
  · simp at hfail

/-- C10 witness: starting with requested difficulty 37 in the
environment where the engine cannot be launched, from the mid-game
session. -/
theorem api_start_not_atomic_spec_witness :
    (Api.start_game testLib failWorld dirtyGame (some 37)).2.status = 500 ∧
    (Api.start_game testLib failWorld dirtyGame (some 37)).2.success = false ∧
    (Api.start_game testLib failWorld dirtyGame (some 37)).2.error.isSome = true ∧
    (Api.start_game testLib failWorld dirtyGame (some 37)).1.board = testLib.init ∧
    (Api.start_game testLib failWorld dirtyGame (some 37)).1.game_history = [] ∧
    (Api.start_game testLib failWorld dirtyGame (some 37)).1.difficulty =
      max 1 (min 20 ((some (37 : Int)).getD 1)) :=
  api_start_not_atomic_spec testLib failWorld dirtyGame (some 37) (by decide)

/-- C5 counterexample: a POST /api/move request whose body is the JSON
value null lacks a move, yet is answered 500, not 400: the
non-dict body makes `data.get('move')` raise `AttributeError`, which the
generic handler converts to a 500 envelope. -/
theorem api_move_counterexample :
    (Api.make_move testLib testWorld testGame none "t0").2.status = 500 ∧
    ¬ (Api.make_move testLib testWorld testGame none "t0").2.status = 400 ∧
    (Api.make_move testLib testWorld testGame none "t0").2.success = false := by
  decide

/-- C5 amended: a POST /api/move request whose JSON body is a dict
lacking a move (or with an empty move string) is answered 400
"Move required"; a dict body with a nonempty move that is unparsable
or illegal is answered 400 "Invalid move"; both leave the state
unchanged. A non-dict body (e.g. JSON null), though it also lacks a
move, is answered 500 by the generic exception handler, with the state
unchanged. For a body carrying a move string, a 500 answer happens
exactly when the player move was applied and the AI (engine) move then
failed. -/
theorem api_move_amended {B M E : Type} [DecidableEq M] (lib : ChessLib B M)
    (w : World B M E) (g : ChessGame B M E) (body : Option (Option String))
    (now : String) :
    (∀ mv?, body = some mv? → (mv? = none ∨ mv? = some "") →
      Api.make_move lib w g body now =
        (g, { status := 400, success := false, error := some "Move required",
              board_state := none, ai_move := none, game_over := none })) ∧
    (∀ mv, body = some (some mv) → mv.isEmpty = false →
      (ChessGame.make_move lib g mv now).2 = false →
      Api.make_move lib w g body now =
        (g, { status := 400, success := false, error := some "Invalid move",
              board_state := none, ai_move := none, game_over := none })) ∧
    (body = none →
      (Api.make_move lib w g body now).2.status = 500 ∧
      (Api.make_move lib w g body now).2.success = false ∧
      (Api.make_move lib w g body now).2.error.isSome = true ∧
      (Api.make_move lib w g body now).1 = g) ∧
    (∀ mv, body = some (some mv) →
      (Api.make_move lib w g body now).2.status = 500 →
      (ChessGame.make_move lib g mv now).2 = true ∧
      (ChessGame.get_engine_move lib w (ChessGame.make_move lib g mv now).1 now).2 =
        none) := by
  refine ⟨?_, ?_, ?_, ?_⟩
  · rintro mv? rfl (rfl | rfl)
    · rfl
    · rfl
  · rintro mv rfl hne hfalse
    rcases hmm : ChessGame.make_move lib g mv now with ⟨g1, ok⟩
    rw [hmm] at hfalse
    simp only at hfalse
    subst hfalse
    have hfr := make_move_frame lib g mv now
    rw [hmm] at hfr
    have hg1 : g1 = g := hfr.2.2.2 rfl
    subst hg1
    simp [Api.make_move, hne, hmm]
  · rintro rfl
    exact ⟨rfl, rfl, rfl, rfl⟩
  · rintro mv rfl h500
    by_cases hne : mv.isEmpty = true
    · simp [Api.make_move, hne] at h500
    · rw [Bool.not_eq_true] at hne
      rcases hmm : ChessGame.make_move lib g mv now with ⟨g1, ok⟩
      rcases ok with _ | _
      · simp [Api.make_move, hne, hmm] at h500
      · refine ⟨rfl, ?_⟩
        by_cases hgo : (ChessGame.get_board_state lib g1).is_game_over = true
        · simp [Api.make_move, hne, hmm, hgo] at h500
        · rw [Bool.not_eq_true] at hgo
          rcases hem : ChessGame.get_engine_move lib w g1 now with ⟨g2, am⟩
          rcases am with _ | ai
          · rfl
          · simp [Api.make_move, hne, hmm, hgo, hem] at h500

/-- C5 amended witness: the four cases on the concrete session: missing
move field, illegal move "a1a2", non-dict body, and the 500 of a legal
move "e2e4" whose AI reply fails because the engine cannot launch. -/
theorem api_move_amended_witness :
    Api.make_move testLib testWorld testGame (some none) "t0" =
      (testGame, { status := 400, success := false, error := some "Move required",
                   board_state := none, ai_move := none, game_over := none }) ∧
    Api.make_move testLib testWorld testGame (some (some "a1a2")) "t0" =
      (testGame, { status := 400, success := false, error := some "Invalid move",
                   board_state := none, ai_move := none, game_over := none }) ∧
    ((Api.make_move testLib testWorld testGame none "t0").2.status = 500 ∧
      (Api.make_move testLib testWorld testGame none "t0").2.success = false ∧
      (Api.make_move testLib testWorld testGame none "t0").2.error.isSome = true ∧
      (Api.make_move testLib testWorld testGame none "t0").1 = testGame) ∧
    ((ChessGame.make_move testLib testGame "e2e4" "t0").2 = true ∧
      (ChessGame.get_engine_move testLib failWorld
        (ChessGame.make_move testLib testGame "e2e4" "t0").1 "t0").2 = none) :=
  ⟨(api_move_amended testLib testWorld testGame (some none) "t0").1 none rfl
     (Or.inl rfl),
   (api_move_amended testLib testWorld testGame (some (some "a1a2")) "t0").2.1
     "a1a2" rfl (by decide) (by decide),
   (api_move_amended testLib testWorld testGame none "t0").2.2.1 rfl,
   (api_move_amended testLib failWorld testGame (some (some "e2e4")) "t0").2.2.2
     "e2e4" rfl (by decide)⟩
